import Mathlib

/-!
Verification of the seqr-loading-pipelines task layer against its
natural-language specification.

The definitions below are a shallow embedding of the Python source in
`src/luigi_pipeline/lib/hail_tasks.py` and `src/create_snapshot.py`.
External collaborators (the Hail engine, the filesystem, Elasticsearch) are
modelled as explicit inputs: the set of existing filesystem paths becomes a
predicate `String → Bool`, a matrix table becomes its list of sample ids and
per-row genotype flags, and Elasticsearch calls become values recording which
call was made.  Python string primitives are modelled over `String.data`
(the underlying character list); `str.lower` is modelled on the ASCII range.
Python `float` arithmetic in `_mt_num_shards` and `sample_type_stats` is
modelled exactly over `ℚ`: the two float constants involved round exactly
(`1.4 * 10**9` is exactly `1400000000.0` as an IEEE double) or only shift
comparison outcomes outside any machine-representable count range.
-/

/-- Python's `str.lower` on one character, restricted to ASCII (all sample
ids, index names and contig names in this pipeline are ASCII). -/
def asciiLowerChar (c : Char) : Char :=
  if 'A' ≤ c ∧ c ≤ 'Z' then Char.ofNat (c.toNat + 32) else c

/-- Python's `str.lower`, restricted to ASCII strings. -/
def pyLower (s : String) : String := ⟨s.data.map asciiLowerChar⟩

/-- Python's `c in s` for a single-character needle `c`. -/
def strContainsChar (s : String) (c : Char) : Bool := s.data.contains c

/-- Python's `os.path.join(a, b)` for two components, as used in
`HailMatrixTableTask.complete` (hail_tasks.py line 152): an absolute second
component replaces the first; otherwise the parts are joined, inserting a
separator unless the first part is empty or already ends with one. -/
def ospathJoin (a b : String) : String :=
  if b.data.head? = some '/' then b
  else if a = "" ∨ a.data.getLast? = some '/' then a ++ b
  else a ++ "/" ++ b

/-- Model of `HailMatrixTableTask.complete` (hail_tasks.py lines 148-152): the task is
complete exactly when the `_SUCCESS` marker file inside `dest_path` exists.
`pathExists` abstracts `GCSorLocalTarget(...).exists()`. -/
def completeTask (pathExists : String → Bool) (destPath : String) : Bool :=
  pathExists (ospathJoin destPath "_SUCCESS")

/-- Model of `HailMatrixTableTask.requires` (hail_tasks.py lines 141-143): one
`VcfFile` dependency per source path, excluding any path containing `*`. -/
def requiresVcfFiles (sourcePaths : List String) : List String :=
  sourcePaths.filter (fun s => !(strContainsChar s '*'))

/-- The `es_index` validation in `HailElasticSearchTask.__init__`
(hail_tasks.py lines 466-471): raise unless the index name equals its own
lowercase form.  The check runs in the constructor, before any task work. -/
def esIndexCheck (esIndex : String) : Except String Unit :=
  if esIndex ≠ pyLower esIndex then
    .error ("Invalid es_index name [" ++ esIndex ++ "], must be lowercase")
  else .ok ()

/-- One call made against the Elasticsearch client during cleanup. -/
inductive EsAction where
  | routeIndexOffTempEsCluster (index : String)
  | waitForShardTransfer (index : String)
deriving Repr, DecidableEq

/-- Model of `HailElasticSearchTask.cleanup` (hail_tasks.py lines 506-510), as the
sequence of Elasticsearch client calls it performs: always reroute the index
off the temporary loading nodes first, then wait for the shard transfer only
when the shard count is under 25. -/
def cleanupTask (esIndex : String) (esShards : ℤ) : List EsAction :=
  [EsAction.routeIndexOffTempEsCluster esIndex] ++
    (if esShards < 25 then [EsAction.waitForShardTransfer esIndex] else [])

/-- The denominator `1.4 * 10**9` in `HailElasticSearchTask._mt_num_shards`
(hail_tasks.py line 514).  In Python this is a `float`, and the product
`1.4 * 10**9` rounds to exactly `1400000000.0` as an IEEE double, so the
exact rational value is used here. -/
def esDenominator : ℚ := 1.4 * 10 ^ 9

/-- Model of `HailElasticSearchTask._mt_num_shards` (hail_tasks.py lines 512-518):
the greater of the user-specified minimum shard count and
`ceil(rows * cols / 1.4e9)`. -/
def mtNumShards (esIndexMinNumShards : ℤ) (numRows numCols : ℕ) : ℤ :=
  max esIndexMinNumShards ⌈((numRows * numCols : ℕ) : ℚ) / esDenominator⌉

/-- Model of `GRCh37_STANDARD_CONTIGS` (hail_tasks.py lines 21-47), in source order. -/
def GRCh37_STANDARD_CONTIGS : List String :=
  ["1", "10", "11", "12", "13", "14", "15", "16", "17", "18", "19", "2",
   "20", "21", "22", "3", "4", "5", "6", "7", "8", "9", "X", "Y", "MT"]

/-- Model of `GRCh38_STANDARD_CONTIGS` (hail_tasks.py lines 48-74), in source order. -/
def GRCh38_STANDARD_CONTIGS : List String :=
  ["chr1", "chr10", "chr11", "chr12", "chr13", "chr14", "chr15", "chr16",
   "chr17", "chr18", "chr19", "chr2", "chr20", "chr21", "chr22", "chr3",
   "chr4", "chr5", "chr6", "chr7", "chr8", "chr9", "chrX", "chrY", "chrM"]

/-- Model of `OPTIONAL_CHROMOSOMES` (hail_tasks.py line 75). -/
def OPTIONAL_CHROMOSOMES : List String := ["MT", "chrM", "Y", "chrY"]

/-- Model of `VARIANT_THRESHOLD` (hail_tasks.py line 76). -/
def VARIANT_THRESHOLD : ℕ := 100

/-- Model of `CONST_GRCh37` (hail_tasks.py line 77). -/
def CONST_GRCh37 : String := "37"

/-- Model of `CONST_GRCh38` (hail_tasks.py line 78). -/
def CONST_GRCh38 : String := "38"

/-- The result dictionary of `HailMatrixTableTask.contig_check`, with one
field per possible key. -/
structure ContigCheckResult where
  missing : List String
  unexpected : List String
  underThreshold : List String
deriving Repr, DecidableEq

/-- Model of `HailMatrixTableTask.contig_check` (hail_tasks.py lines 187-226).
`rowCounter` is the per-contig row count aggregated from the matrix table
(`hl.agg.counter(mt.locus.contig)`).  Standard contigs that were not
observed are reported missing unless they are optional chromosomes; observed
contigs outside the standard set are unexpected; observed non-optional
standard contigs with a count under the threshold are underrepresented. -/
def contigCheck (standardContigs : List String) (rowCounter : List (String × ℕ))
    (threshold : ℕ) : ContigCheckResult :=
  let contigsSet := rowCounter.map Prod.fst
  let allMissingContigs := standardContigs.filter (fun c => !(contigsSet.contains c))
  { missing := allMissingContigs.filter (fun c => !(OPTIONAL_CHROMOSOMES.contains c))
    unexpected :=
      (rowCounter.filter (fun kv => !(standardContigs.contains kv.1))).map Prod.fst
    underThreshold :=
      (rowCounter.filter (fun kv =>
        standardContigs.contains kv.1 && !(OPTIONAL_CHROMOSOMES.contains kv.1) &&
          decide (kv.2 < threshold))).map Prod.fst }

/-- Python's emptiness test on the contig-check dictionary
(`bool(contig_check_result)`). -/
def ContigCheckResult.isEmpty (r : ContigCheckResult) : Bool :=
  r.missing.isEmpty && r.unexpected.isEmpty && r.underThreshold.isEmpty

/-- The `match` computation of `HailMatrixTableTask.sample_type_stats`
(hail_tasks.py lines 250-256): the matched fraction of the reference table
reaches the 0.3 threshold.  `matchedCount` abstracts
`mt.semi_join_rows(ht).count_rows()` and `totalCount` abstracts `ht.count()`;
the Python float comparison agrees with exact rational arithmetic here. -/
def ratioMatch (matchedCount totalCount : ℕ) : Bool :=
  decide (((matchedCount : ℚ) / (totalCount : ℚ)) ≥ 0.3)

/-- The distinct `VCFValidationError` cases raised by
`HailMatrixTableTask.validate_mt` (hail_tasks.py lines 259-332). -/
inductive VCFValidationIssue where
  | genomeVersionUnknown (genomeVersion : String)
  | contigCheckFailed (result : ContigCheckResult)
  | genomeVersionMismatch (genomeVersion : String)
  | missingCodingVariants (genomeVersion : String)
  | sampleTypeAppearsWES
  | sampleTypeAppearsWGS
deriving Repr, DecidableEq

/-- The sample-type classification at the end of `validate_mt`
(hail_tasks.py lines 299-332), given the coding/non-coding reference-table
counts. -/
def classifySampleType (genomeVersion sampleType : String)
    (codingMatched codingTotal noncodingMatched noncodingTotal : ℕ) :
    Except VCFValidationIssue Bool :=
  let hasCoding := ratioMatch codingMatched codingTotal
  let hasNoncoding := ratioMatch noncodingMatched noncodingTotal
  if !hasCoding && !hasNoncoding then
    .error (.genomeVersionMismatch genomeVersion)
  else if hasNoncoding && !hasCoding then
    .error (.missingCodingVariants genomeVersion)
  else if hasCoding && !hasNoncoding then
    if sampleType ≠ "WES" then .error .sampleTypeAppearsWES else .ok true
  else if hasNoncoding && hasCoding then
    if sampleType ≠ "WGS" then .error .sampleTypeAppearsWGS else .ok true
  else .ok true

/-- Model of `HailMatrixTableTask.validate_mt` (hail_tasks.py lines 259-332): dispatch
on the genome version, fail on a non-empty contig check, then classify the
sample type from the coding/non-coding reference-table stats. -/
def validateMt (rowCounter : List (String × ℕ)) (genomeVersion sampleType : String)
    (codingMatched codingTotal noncodingMatched noncodingTotal : ℕ) :
    Except VCFValidationIssue Bool :=
  if genomeVersion = CONST_GRCh37 then
    let contigCheckResult := contigCheck GRCh37_STANDARD_CONTIGS rowCounter VARIANT_THRESHOLD
    if !contigCheckResult.isEmpty then .error (.contigCheckFailed contigCheckResult)
    else classifySampleType genomeVersion sampleType
      codingMatched codingTotal noncodingMatched noncodingTotal
  else if genomeVersion = CONST_GRCh38 then
    let contigCheckResult := contigCheck GRCh38_STANDARD_CONTIGS rowCounter VARIANT_THRESHOLD
    if !contigCheckResult.isEmpty then .error (.contigCheckFailed contigCheckResult)
    else classifySampleType genomeVersion sampleType
      codingMatched codingTotal noncodingMatched noncodingTotal
  else .error (.genomeVersionUnknown genomeVersion)

/-- Python `dict` key order over a traversal: first occurrence of each
element, as `collections.Counter` preserves it. -/
def pyDedup (xs : List String) : List String :=
  xs.foldl (fun acc x => if x ∈ acc then acc else acc ++ [x]) []

/-- The duplicate keys of a traversal:
`[k for k, v in Counter(xs).items() if v > 1]`
(hail_tasks.py lines 390-391). -/
def dupKeys (xs : List String) : List String :=
  (pyDedup xs).filter (fun k => decide (1 < xs.count k))

/-- The fatal errors raised by `HailMatrixTableTask.remap_sample_ids`
(hail_tasks.py lines 380-415): the `ValueError` on duplicate remap entries
(carrying both duplicate lists), and the `MatrixTableSampleSetError` when a
remap source id is absent from the callset. -/
inductive RemapIssue where
  | duplicateEntries (sDups seqrDups : List String)
  | missingSamples (matchedCount remapCount : ℕ)
      (missing : List (String × String)) (allCallsetIds : List String)
deriving Repr, DecidableEq

/-- Model of `HailMatrixTableTask.remap_sample_ids` (hail_tasks.py lines 380-415).
`remapRows` is the remap table as `(s, seqr_id)` pairs; `callsetIds` the
callset's sample ids.  On success each callset column is rekeyed to its
`seqr_id` when a mapping exists (keeping the original id as `vcf_id`),
otherwise kept as is; the result lists `(s, vcf_id)` per column. -/
def remapSampleIds (remapRows : List (String × String)) (callsetIds : List String) :
    Except RemapIssue (List (String × String)) :=
  let sDups := dupKeys (remapRows.map Prod.fst)
  let seqrDups := dupKeys (remapRows.map Prod.snd)
  if 0 < sDups.length ∨ 0 < seqrDups.length then
    .error (.duplicateEntries sDups seqrDups)
  else
    let missingSamples := remapRows.filter (fun r => !(callsetIds.contains r.1))
    if missingSamples.length ≠ 0 then
      .error (.missingSamples
        (remapRows.filter (fun r => callsetIds.contains r.1)).length
        remapRows.length missingSamples callsetIds)
    else
      .ok (callsetIds.map (fun s =>
        match remapRows.find? (fun r => r.1 == s) with
        | some r => (r.2, s)
        | none => (s, s)))

/-- A matrix table as the subset/remap steps see it: the column sample ids,
and per row the `GT.is_non_ref()` flag of each sample (aligned with
`sampleIds`). -/
structure MatrixTable where
  sampleIds : List String
  nonRefCalls : List (List Bool)
deriving Repr, DecidableEq

/-- Model of `mt.semi_join_cols(subset_ht)` (hail_tasks.py line 371): keep the columns
whose sample id appears in the subset table, restricting every row to the
retained columns. -/
def semiJoinCols (mt : MatrixTable) (subsetIds : List String) : MatrixTable :=
  { sampleIds := mt.sampleIds.filter (fun s => subsetIds.contains s)
    nonRefCalls := mt.nonRefCalls.map (fun row =>
      ((mt.sampleIds.zip row).filter (fun p => subsetIds.contains p.1)).map Prod.snd) }

/-- Model of `mt.filter_rows(hl.agg.any(mt.GT.is_non_ref()))` (hail_tasks.py
line 372): keep the rows with at least one non-reference genotype call. -/
def filterRowsAnyNonRef (mt : MatrixTable) : MatrixTable :=
  { sampleIds := mt.sampleIds
    nonRefCalls := mt.nonRefCalls.filter (fun row => row.any id) }

/-- The payload of `MatrixTableSampleSetError` as
`subset_samples_and_variants` raises it (hail_tasks.py lines 358-369): the
matched/total counts of the message, the missing ids, and the full observed
callset id set. -/
structure SampleSetMismatch where
  matchedCount : ℕ
  subsetCount : ℕ
  missingSamples : List String
  allCallsetIds : List String
deriving Repr, DecidableEq

/-- Model of `HailMatrixTableTask.subset_samples_and_variants` (hail_tasks.py
lines 344-378).  `subsetIds` is the one-column subset table; missing ids are
fatal unless the ignore flag is set and at least one id matched; on success
the callset is restricted to the subset and rows without any non-reference
call are dropped. -/
def subsetSamplesAndVariants (mt : MatrixTable) (subsetIds : List String)
    (ignoreMissingSamples : Bool) : Except SampleSetMismatch MatrixTable :=
  let subsetCount := subsetIds.length
  let missingSamples := subsetIds.filter (fun s => !(mt.sampleIds.contains s))
  if missingSamples.length ≠ 0 ∧
      ¬(missingSamples.length < subsetCount ∧ ignoreMissingSamples = true) then
    .error { matchedCount := subsetCount - missingSamples.length
             subsetCount := subsetCount
             missingSamples := missingSamples
             allCallsetIds := mt.sampleIds }
  else
    .ok (filterRowsAnyNonRef (semiJoinCols mt subsetIds))

/-- What one run of the snapshot utility (src/create_snapshot.py) does once
the index-existence check passes. -/
structure SnapshotRun where
  snapshotName : String
  repository : String
  waitForCompletion : Bool
deriving Repr, DecidableEq

/-- The snapshot utility's core flow (create_snapshot.py lines 30-51):
`existingIndices` abstracts `es.indices.get(index="*").keys()` and
`timestamp` the formatted current local time.  An unknown index is an
argument-parsing error; otherwise the snapshot is created under the name
`snapshot_<index.lower()>__<timestamp>`. -/
def createSnapshot (existingIndices : List String) (repo index timestamp : String)
    (wait : Bool) : Except String SnapshotRun :=
  if !(existingIndices.contains index) then
    .error (index ++ " not found. Existing indices are: " ++
      String.intercalate ", " existingIndices)
  else
    .ok { snapshotName := "snapshot_" ++ pyLower index ++ "__" ++ timestamp
          repository := repo
          waitForCompletion := wait }

lemma ospathJoin_success_length (d : String) :
    d.length < (ospathJoin d "_SUCCESS").length := by
  unfold ospathJoin
  rw [if_neg (by decide)]
  split
  · rename_i h
    rcases h with h | h
    · subst h; decide
    · rw [String.length_append]
      have : ("_SUCCESS" : String).length = 8 := by decide
      omega
  · rw [String.length_append, String.length_append]
    have h1 : ("_SUCCESS" : String).length = 8 := by decide
    have h2 : ("/" : String).length = 1 := by decide
    omega

lemma ospathJoin_success_ne (d : String) : ospathJoin d "_SUCCESS" ≠ d := by
  intro h
  have := ospathJoin_success_length d
  rw [h] at this
  omega

/-- C1: `complete()` returns true exactly when the `_SUCCESS` marker inside
`dest_path` exists, and in the state where only the destination path itself
exists (but no marker inside it), `complete()` returns false. -/
theorem complete_checks_success_marker (pathExists : String → Bool) (destPath : String) :
    (completeTask pathExists destPath = true ↔
      pathExists (ospathJoin destPath "_SUCCESS") = true) ∧
    completeTask (fun p => p == destPath) destPath = false := by
  constructor
  · exact Iff.rfl
  · unfold completeTask
    exact beq_eq_false_iff_ne.mpr (ospathJoin_success_ne destPath)

/-- C1 at a concrete destination: with only `/tmp/dest` existing, `complete`
is false; once `/tmp/dest/_SUCCESS` exists, `complete` is true. -/
theorem complete_marker_instance :
    completeTask (fun p => p == "/tmp/dest") "/tmp/dest" = false ∧
    completeTask (fun p => p == "/tmp/dest/_SUCCESS") "/tmp/dest" = true := by
  exact ⟨(complete_checks_success_marker (fun p => p == "/tmp/dest") "/tmp/dest").2,
    by decide⟩

/-- C10: `requires()` keeps exactly the source paths without a `*`; a glob
path is never turned into a `VcfFile` dependency, so its existence is never
checked as a precondition. -/
theorem requires_excludes_globs (sourcePaths : List String) (s : String) :
    (s ∈ requiresVcfFiles sourcePaths ↔
      s ∈ sourcePaths ∧ strContainsChar s '*' = false) ∧
    (s ∈ sourcePaths → strContainsChar s '*' = true →
      s ∉ requiresVcfFiles sourcePaths) := by
  constructor
  · simp [requiresVcfFiles]
  · intro hmem hglob hreq
    rw [requiresVcfFiles, List.mem_filter] at hreq
    rw [hglob] at hreq
    simp at hreq

/-- C10 at concrete inputs: a literal path is a dependency, a glob is not. -/
theorem requires_excludes_globs_instance :
    "gs://b/a.vcf.gz" ∈ requiresVcfFiles ["gs://b/a.vcf.gz", "gs://b/part-*.vcf.gz"] ∧
    "gs://b/part-*.vcf.gz" ∉ requiresVcfFiles ["gs://b/a.vcf.gz", "gs://b/part-*.vcf.gz"] := by
  constructor
  · exact ((requires_excludes_globs _ _).1).mpr (by decide)
  · exact (requires_excludes_globs _ "gs://b/part-*.vcf.gz").2 (by decide) (by decide)

/-- C7: construction of a `HailElasticSearchTask` rejects an index name that
is not identical to its lowercase form, and accepts a lowercase one. -/
theorem es_index_lowercase_check (s : String) :
    (esIndexCheck s = .ok () ↔ s = pyLower s) ∧
    (s ≠ pyLower s →
      esIndexCheck s =
        .error ("Invalid es_index name [" ++ s ++ "], must be lowercase")) := by
  constructor
  · constructor
    · intro hok
      by_contra hne
      unfold esIndexCheck at hok
      rw [if_pos hne] at hok
      cases hok
    · intro heq
      unfold esIndexCheck
      rw [if_neg (not_not_intro heq)]
  · intro h
    unfold esIndexCheck
    rw [if_pos h]

/-- C7 at concrete inputs: `"DATA"` is rejected, `"data"` is accepted. -/
theorem es_index_lowercase_check_instance :
    esIndexCheck "DATA" = .error "Invalid es_index name [DATA], must be lowercase" ∧
    esIndexCheck "data" = .ok () := by
  constructor
  · exact (es_index_lowercase_check "DATA").2 (by decide)
  · exact ((es_index_lowercase_check "data").1).mpr (by decide)

/-- C8: cleanup always reroutes the index off the temporary loading nodes
first, and performs the blocking wait for the shard transfer exactly when
the shard count is strictly below 25. -/
theorem cleanup_waits_only_below_25 (esIndex : String) (esShards : ℤ) :
    (cleanupTask esIndex esShards).head? =
      some (EsAction.routeIndexOffTempEsCluster esIndex) ∧
    (EsAction.waitForShardTransfer esIndex ∈ cleanupTask esIndex esShards ↔
      esShards < 25) := by
  unfold cleanupTask
  refine ⟨by split <;> rfl, ?_⟩
  by_cases h : esShards < 25
  · rw [if_pos h]
    exact iff_of_true (by simp) h
  · rw [if_neg h]
    exact iff_of_false (by simp) h

/-- C8 at concrete shard counts: 24 shards wait, 25 shards do not. -/
theorem cleanup_waits_only_below_25_instance :
    cleanupTask "data" 24 =
      [EsAction.routeIndexOffTempEsCluster "data", EsAction.waitForShardTransfer "data"] ∧
    cleanupTask "data" 25 = [EsAction.routeIndexOffTempEsCluster "data"] := by
  constructor
  · rfl
  · rfl

lemma ceil_natCast_div (a b : ℕ) (hb : 0 < b) :
    ⌈((a : ℚ)) / ((b : ℚ))⌉ = (((a + b - 1) / b : ℕ) : ℤ) := by
  have hbq : (0 : ℚ) < (b : ℚ) := by exact_mod_cast hb
  have h1 : b * ((a + b - 1) / b) + (a + b - 1) % b = a + b - 1 :=
    Nat.div_add_mod _ _
  have hr : (a + b - 1) % b < b := Nat.mod_lt _ hb
  set q : ℕ := (a + b - 1) / b with hq
  set r : ℕ := (a + b - 1) % b with hrdef
  have hub : a ≤ b * q := by omega
  have hlb : b * q < a + b := by omega
  rw [Int.ceil_eq_iff]
  constructor
  · rw [lt_div_iff₀ hbq]
    have : ((b * q : ℕ) : ℚ) < ((a + b : ℕ) : ℚ) := by exact_mod_cast hlb
    push_cast at this ⊢
    nlinarith
  · rw [div_le_iff₀ hbq]
    have : ((a : ℕ) : ℚ) ≤ ((b * q : ℕ) : ℚ) := by exact_mod_cast hub
    push_cast at this ⊢
    nlinarith

/-- C4: the export shard count equals `max(min_shards, ceil(rows*cols/1.4e9))`,
written with exact natural-number ceiling division. -/
theorem mt_num_shards_formula (numRows numCols : ℕ) (minShards : ℤ)
    (_hm : 0 ≤ minShards) :
    mtNumShards minShards numRows numCols =
      max minShards (((numRows * numCols + 1399999999) / 1400000000 : ℕ) : ℤ) := by
  unfold mtNumShards
  have hden : esDenominator = ((1400000000 : ℕ) : ℚ) := by
    norm_num [esDenominator]
  rw [hden, ceil_natCast_div (numRows * numCols) 1400000000 (by norm_num)]
  norm_num

/-- C4 at the spec's concrete inputs: two billion rows with one sample and a
minimum of 1 give 2 shards; one row with a minimum of 5 gives 5 shards. -/
theorem mt_num_shards_formula_witness :
    (0 : ℤ) ≤ 1 ∧ (0 : ℤ) ≤ 5 ∧
    mtNumShards 1 2000000000 1 = 2 ∧ mtNumShards 5 1 1 = 5 := by
  refine ⟨by norm_num, by norm_num, ?_, ?_⟩
  · rw [mt_num_shards_formula 2000000000 1 1 (by norm_num)]
    norm_num
  · rw [mt_num_shards_formula 1 1 5 (by norm_num)]
    norm_num

/-- C3 counterexample: with rows only on contigs 1, 2, 3 against the GRCh37
standard set, `Y` is a standard contig distinct from `MT` and from the three
present contigs, yet it is not reported missing (it is in the optional
allowlist together with `MT`), so the missing set is not "all standard
contigs except MT and the 3 present". -/
theorem contig_check_y_not_missing :
    "Y" ∈ GRCh37_STANDARD_CONTIGS ∧
    "Y" ∉ (["1", "2", "3"] : List String) ∧ "Y" ≠ "MT" ∧
    "Y" ∉ (contigCheck GRCh37_STANDARD_CONTIGS
            [("1", 1000), ("2", 1000), ("3", 1000)] VARIANT_THRESHOLD).missing := by
  decide

/-- C3 amended: with rows only on contigs 1, 2, 3 against the GRCh37
standard set, the missing contigs are exactly the standard contigs other
than the three present ones and the optional chromosomes (MT and Y), and no
contig is reported unexpected. -/
theorem contig_check_missing_all_but_optional_and_present :
    (contigCheck GRCh37_STANDARD_CONTIGS
        [("1", 1000), ("2", 1000), ("3", 1000)] VARIANT_THRESHOLD).missing =
      GRCh37_STANDARD_CONTIGS.filter
        (fun c => !((["1", "2", "3"] : List String).contains c) &&
                  !(OPTIONAL_CHROMOSOMES.contains c)) ∧
    (contigCheck GRCh37_STANDARD_CONTIGS
        [("1", 1000), ("2", 1000), ("3", 1000)] VARIANT_THRESHOLD).unexpected = [] := by
  decide

lemma ratioMatch_eq_true {m t : ℕ} (h : (3 : ℚ) / 10 ≤ (m : ℚ) / (t : ℚ)) :
    ratioMatch m t = true := by
  unfold ratioMatch
  rw [decide_eq_true_eq]
  have h03 : (0.3 : ℚ) = 3 / 10 := by norm_num
  rw [ge_iff_le, h03]
  exact h

lemma ratioMatch_eq_false {m t : ℕ} (h : (m : ℚ) / (t : ℚ) < 3 / 10) :
    ratioMatch m t = false := by
  unfold ratioMatch
  rw [decide_eq_false_iff_not]
  intro hge
  have h03 : (0.3 : ℚ) = 3 / 10 := by norm_num
  rw [ge_iff_le, h03] at hge
  linarith

lemma validateMt_eq_classify_37 (rowCounter : List (String × ℕ))
    (sampleType : String) (cm ct nm nt : ℕ)
    (he : (contigCheck GRCh37_STANDARD_CONTIGS rowCounter VARIANT_THRESHOLD).isEmpty = true) :
    validateMt rowCounter CONST_GRCh37 sampleType cm ct nm nt =
      classifySampleType CONST_GRCh37 sampleType cm ct nm nt := by
  unfold validateMt
  simp [he]

lemma validateMt_eq_classify_38 (rowCounter : List (String × ℕ))
    (sampleType : String) (cm ct nm nt : ℕ)
    (he : (contigCheck GRCh38_STANDARD_CONTIGS rowCounter VARIANT_THRESHOLD).isEmpty = true) :
    validateMt rowCounter CONST_GRCh38 sampleType cm ct nm nt =
      classifySampleType CONST_GRCh38 sampleType cm ct nm nt := by
  unfold validateMt
  have h38 : CONST_GRCh38 ≠ CONST_GRCh37 := by decide
  simp [he, h38]

lemma classify_no_match (gv st : String) {cm ct nm nt : ℕ}
    (hc : ratioMatch cm ct = false) (hn : ratioMatch nm nt = false) :
    classifySampleType gv st cm ct nm nt = .error (.genomeVersionMismatch gv) := by
  unfold classifySampleType
  simp [hc, hn]

lemma classify_noncoding_only (gv st : String) {cm ct nm nt : ℕ}
    (hc : ratioMatch cm ct = false) (hn : ratioMatch nm nt = true) :
    classifySampleType gv st cm ct nm nt = .error (.missingCodingVariants gv) := by
  unfold classifySampleType
  simp [hc, hn]

lemma classify_coding_only (gv st : String) {cm ct nm nt : ℕ}
    (hc : ratioMatch cm ct = true) (hn : ratioMatch nm nt = false) :
    classifySampleType gv st cm ct nm nt =
      if st ≠ "WES" then .error .sampleTypeAppearsWES else .ok true := by
  unfold classifySampleType
  simp [hc, hn]

lemma classify_both (gv st : String) {cm ct nm nt : ℕ}
    (hc : ratioMatch cm ct = true) (hn : ratioMatch nm nt = true) :
    classifySampleType gv st cm ct nm nt =
      if st ≠ "WGS" then .error .sampleTypeAppearsWGS else .ok true := by
  unfold classifySampleType
  simp [hc, hn]

/-- C2: once the contig check passes, `validate_mt` classifies by the
matched fractions of the coding and non-coding reference tables against the
0.3 threshold, in the code's priority: neither matching is a genome-version
mismatch; only non-coding matching is a missing-coding-variants error; only
coding matching errors unless the declared type is WES; both matching errors
unless the declared type is WGS; an agreeing declaration returns true. -/
theorem validate_mt_classification (rowCounter : List (String × ℕ))
    (genomeVersion sampleType : String) (cm ct nm nt : ℕ)
    (hgv : (genomeVersion = CONST_GRCh37 ∧
             (contigCheck GRCh37_STANDARD_CONTIGS rowCounter VARIANT_THRESHOLD).isEmpty = true) ∨
           (genomeVersion = CONST_GRCh38 ∧
             (contigCheck GRCh38_STANDARD_CONTIGS rowCounter VARIANT_THRESHOLD).isEmpty = true))
    (_hct : 0 < ct) (_hnt : 0 < nt) :
    (((cm : ℚ) / (ct : ℚ) < 3 / 10 ∧ (nm : ℚ) / (nt : ℚ) < 3 / 10) →
      validateMt rowCounter genomeVersion sampleType cm ct nm nt =
        .error (.genomeVersionMismatch genomeVersion)) ∧
    (((cm : ℚ) / (ct : ℚ) < 3 / 10 ∧ (3 : ℚ) / 10 ≤ (nm : ℚ) / (nt : ℚ)) →
      validateMt rowCounter genomeVersion sampleType cm ct nm nt =
        .error (.missingCodingVariants genomeVersion)) ∧
    (((3 : ℚ) / 10 ≤ (cm : ℚ) / (ct : ℚ) ∧ (nm : ℚ) / (nt : ℚ) < 3 / 10 ∧
        sampleType ≠ "WES") →
      validateMt rowCounter genomeVersion sampleType cm ct nm nt =
        .error .sampleTypeAppearsWES) ∧
    (((3 : ℚ) / 10 ≤ (cm : ℚ) / (ct : ℚ) ∧ (nm : ℚ) / (nt : ℚ) < 3 / 10 ∧
        sampleType = "WES") →
      validateMt rowCounter genomeVersion sampleType cm ct nm nt = .ok true) ∧
    (((3 : ℚ) / 10 ≤ (cm : ℚ) / (ct : ℚ) ∧ (3 : ℚ) / 10 ≤ (nm : ℚ) / (nt : ℚ) ∧
        sampleType ≠ "WGS") →
      validateMt rowCounter genomeVersion sampleType cm ct nm nt =
        .error .sampleTypeAppearsWGS) ∧
    (((3 : ℚ) / 10 ≤ (cm : ℚ) / (ct : ℚ) ∧ (3 : ℚ) / 10 ≤ (nm : ℚ) / (nt : ℚ) ∧
        sampleType = "WGS") →
      validateMt rowCounter genomeVersion sampleType cm ct nm nt = .ok true) := by
  have hcls : validateMt rowCounter genomeVersion sampleType cm ct nm nt =
      classifySampleType genomeVersion sampleType cm ct nm nt := by
    rcases hgv with ⟨hg, he⟩ | ⟨hg, he⟩
    · subst hg; exact validateMt_eq_classify_37 rowCounter sampleType cm ct nm nt he
    · subst hg; exact validateMt_eq_classify_38 rowCounter sampleType cm ct nm nt he
  rw [hcls]
  refine ⟨?_, ?_, ?_, ?_, ?_, ?_⟩
  · rintro ⟨h1, h2⟩
    exact classify_no_match _ _ (ratioMatch_eq_false h1) (ratioMatch_eq_false h2)
  · rintro ⟨h1, h2⟩
    exact classify_noncoding_only _ _ (ratioMatch_eq_false h1) (ratioMatch_eq_true h2)
  · rintro ⟨h1, h2, h3⟩
    rw [classify_coding_only _ _ (ratioMatch_eq_true h1) (ratioMatch_eq_false h2),
      if_pos h3]
  · rintro ⟨h1, h2, h3⟩
    rw [classify_coding_only _ _ (ratioMatch_eq_true h1) (ratioMatch_eq_false h2),
      if_neg (not_not_intro h3)]
  · rintro ⟨h1, h2, h3⟩
    rw [classify_both _ _ (ratioMatch_eq_true h1) (ratioMatch_eq_true h2), if_pos h3]
  · rintro ⟨h1, h2, h3⟩
    rw [classify_both _ _ (ratioMatch_eq_true h1) (ratioMatch_eq_true h2),
      if_neg (not_not_intro h3)]

/-- C2 at the spec's concrete instance: a callset covering contigs 1-22 and X
passes the GRCh37 contig check; with coding ratio 5/10 and non-coding ratio
1/10, a declared WES passes and a declared WGS fails with a sample-type
mismatch error. -/
theorem validate_mt_classification_witness :
    ((CONST_GRCh37 = CONST_GRCh37 ∧
        (contigCheck GRCh37_STANDARD_CONTIGS
          [("1", 1000), ("2", 1000), ("3", 1000), ("4", 1000), ("5", 1000),
           ("6", 1000), ("7", 1000), ("8", 1000), ("9", 1000), ("10", 1000),
           ("11", 1000), ("12", 1000), ("13", 1000), ("14", 1000), ("15", 1000),
           ("16", 1000), ("17", 1000), ("18", 1000), ("19", 1000), ("20", 1000),
           ("21", 1000), ("22", 1000), ("X", 1000)] VARIANT_THRESHOLD).isEmpty = true) ∨
      (CONST_GRCh37 = CONST_GRCh38 ∧
        (contigCheck GRCh38_STANDARD_CONTIGS
          [("1", 1000), ("2", 1000), ("3", 1000), ("4", 1000), ("5", 1000),
           ("6", 1000), ("7", 1000), ("8", 1000), ("9", 1000), ("10", 1000),
           ("11", 1000), ("12", 1000), ("13", 1000), ("14", 1000), ("15", 1000),
           ("16", 1000), ("17", 1000), ("18", 1000), ("19", 1000), ("20", 1000),
           ("21", 1000), ("22", 1000), ("X", 1000)] VARIANT_THRESHOLD).isEmpty = true)) ∧
    0 < 10 ∧
    validateMt
      [("1", 1000), ("2", 1000), ("3", 1000), ("4", 1000), ("5", 1000),
       ("6", 1000), ("7", 1000), ("8", 1000), ("9", 1000), ("10", 1000),
       ("11", 1000), ("12", 1000), ("13", 1000), ("14", 1000), ("15", 1000),
       ("16", 1000), ("17", 1000), ("18", 1000), ("19", 1000), ("20", 1000),
       ("21", 1000), ("22", 1000), ("X", 1000)] CONST_GRCh37 "WES" 5 10 1 10 = .ok true ∧
    validateMt
      [("1", 1000), ("2", 1000), ("3", 1000), ("4", 1000), ("5", 1000),
       ("6", 1000), ("7", 1000), ("8", 1000), ("9", 1000), ("10", 1000),
       ("11", 1000), ("12", 1000), ("13", 1000), ("14", 1000), ("15", 1000),
       ("16", 1000), ("17", 1000), ("18", 1000), ("19", 1000), ("20", 1000),
       ("21", 1000), ("22", 1000), ("X", 1000)] CONST_GRCh37 "WGS" 5 10 1 10 =
      .error .sampleTypeAppearsWES := by
  have hempty : (contigCheck GRCh37_STANDARD_CONTIGS
      [("1", 1000), ("2", 1000), ("3", 1000), ("4", 1000), ("5", 1000),
       ("6", 1000), ("7", 1000), ("8", 1000), ("9", 1000), ("10", 1000),
       ("11", 1000), ("12", 1000), ("13", 1000), ("14", 1000), ("15", 1000),
       ("16", 1000), ("17", 1000), ("18", 1000), ("19", 1000), ("20", 1000),
       ("21", 1000), ("22", 1000), ("X", 1000)] VARIANT_THRESHOLD).isEmpty = true := by
    decide
  have hwes := validate_mt_classification _ CONST_GRCh37 "WES" 5 10 1 10
    (Or.inl ⟨rfl, hempty⟩) (by norm_num) (by norm_num)
  have hwgs := validate_mt_classification _ CONST_GRCh37 "WGS" 5 10 1 10
    (Or.inl ⟨rfl, hempty⟩) (by norm_num) (by norm_num)
  refine ⟨Or.inl ⟨rfl, hempty⟩, by norm_num, ?_, ?_⟩
  · exact hwes.2.2.2.1 ⟨by norm_num, by norm_num, rfl⟩
  · exact hwgs.2.2.1 ⟨by norm_num, by norm_num, by decide⟩

lemma listContainsIff (l : List String) (a : String) : l.contains a = true ↔ a ∈ l :=
  List.elem_iff

lemma mem_pyDedup_aux (xs : List String) :
    ∀ (acc : List String) (k : String),
      k ∈ xs.foldl (fun acc x => if x ∈ acc then acc else acc ++ [x]) acc ↔
        k ∈ acc ∨ k ∈ xs := by
  induction xs with
  | nil => intro acc k; simp
  | cons x xs ih =>
    intro acc k
    rw [List.foldl_cons, ih]
    by_cases hx : x ∈ acc
    · rw [if_pos hx]
      constructor
      · rintro (h | h)
        · exact Or.inl h
        · exact Or.inr (List.mem_cons_of_mem x h)
      · rintro (h | h)
        · exact Or.inl h
        · rcases List.mem_cons.1 h with h | h
          · exact Or.inl (h ▸ hx)
          · exact Or.inr h
    · rw [if_neg hx]
      simp only [List.mem_append, List.mem_singleton, List.mem_cons]
      tauto

lemma mem_pyDedup (xs : List String) (k : String) : k ∈ pyDedup xs ↔ k ∈ xs := by
  unfold pyDedup
  rw [mem_pyDedup_aux]
  simp

lemma mem_dupKeys (xs : List String) (k : String) :
    k ∈ dupKeys xs ↔ 1 < xs.count k := by
  unfold dupKeys
  rw [List.mem_filter, mem_pyDedup, decide_eq_true_eq]
  constructor
  · exact fun h => h.2
  · intro h
    refine ⟨?_, h⟩
    have : 0 < xs.count k := by omega
    exact List.count_pos_iff.1 this

/-- C5: a remap table with a duplicate source id or a duplicate target id
makes `remap_sample_ids` fail with the duplicate-entries error, whose
payload names exactly the duplicated source ids and the duplicated target
ids; no remapped table is produced. -/
theorem remap_duplicate_detection (remapRows : List (String × String))
    (callsetIds : List String)
    (hdup : (∃ k, 1 < (remapRows.map Prod.fst).count k) ∨
            (∃ k, 1 < (remapRows.map Prod.snd).count k)) :
    ∃ sDups seqrDups,
      remapSampleIds remapRows callsetIds = .error (.duplicateEntries sDups seqrDups) ∧
      (∀ k, k ∈ sDups ↔ 1 < (remapRows.map Prod.fst).count k) ∧
      (∀ k, k ∈ seqrDups ↔ 1 < (remapRows.map Prod.snd).count k) := by
  refine ⟨dupKeys (remapRows.map Prod.fst), dupKeys (remapRows.map Prod.snd), ?_,
    fun k => mem_dupKeys _ k, fun k => mem_dupKeys _ k⟩
  have hpos : 0 < (dupKeys (remapRows.map Prod.fst)).length ∨
      0 < (dupKeys (remapRows.map Prod.snd)).length := by
    rcases hdup with ⟨k, hk⟩ | ⟨k, hk⟩
    · exact Or.inl (List.length_pos.2 (List.ne_nil_of_mem ((mem_dupKeys _ k).2 hk)))
    · exact Or.inr (List.length_pos.2 (List.ne_nil_of_mem ((mem_dupKeys _ k).2 hk)))
  unfold remapSampleIds
  rw [if_pos hpos]

/-- C5 at the spec's concrete instance: remap rows `(A, X), (A, Y)` fail with
a duplicate-entries error whose duplicate source ids are exactly `[A]`. -/
theorem remap_duplicate_detection_witness :
    ((∃ k, 1 < ((([("A", "X"), ("A", "Y")] : List (String × String)).map Prod.fst).count k)) ∨
      (∃ k, 1 < ((([("A", "X"), ("A", "Y")] : List (String × String)).map Prod.snd).count k))) ∧
    remapSampleIds [("A", "X"), ("A", "Y")] ["A"] =
      .error (.duplicateEntries ["A"] []) ∧
    (∃ sDups seqrDups,
      remapSampleIds [("A", "X"), ("A", "Y")] ["A"] =
        .error (.duplicateEntries sDups seqrDups) ∧
      (∀ k, k ∈ sDups ↔
        1 < ((([("A", "X"), ("A", "Y")] : List (String × String)).map Prod.fst).count k)) ∧
      (∀ k, k ∈ seqrDups ↔
        1 < ((([("A", "X"), ("A", "Y")] : List (String × String)).map Prod.snd).count k))) := by
  have hd : (∃ k, 1 < ((([("A", "X"), ("A", "Y")] : List (String × String)).map Prod.fst).count k)) ∨
      (∃ k, 1 < ((([("A", "X"), ("A", "Y")] : List (String × String)).map Prod.snd).count k)) :=
    Or.inl ⟨"A", by decide⟩
  exact ⟨hd, by rfl, remap_duplicate_detection _ ["A"] hd⟩

/-- C6: when some subset id is absent, the step fails — listing exactly the
missing ids and the full callset id set — if the ignore flag is off or no
subset id matches at all; when every id is present, or the flag is on and at
least one id matches, it succeeds, restricting the columns to the subset and
keeping only rows with a non-reference call. -/
theorem subset_missing_samples (mt : MatrixTable) (subsetIds : List String)
    (flag : Bool) :
    ((subsetIds.filter (fun s => !(mt.sampleIds.contains s)) ≠ [] ∧
        (flag = false ∨ ∀ s ∈ subsetIds, mt.sampleIds.contains s = false)) →
      subsetSamplesAndVariants mt subsetIds flag =
        .error { matchedCount := subsetIds.length -
                   (subsetIds.filter (fun s => !(mt.sampleIds.contains s))).length
                 subsetCount := subsetIds.length
                 missingSamples := subsetIds.filter (fun s => !(mt.sampleIds.contains s))
                 allCallsetIds := mt.sampleIds }) ∧
    ((subsetIds.filter (fun s => !(mt.sampleIds.contains s)) = [] ∨
        (flag = true ∧ ∃ s ∈ subsetIds, mt.sampleIds.contains s = true)) →
      ∃ mt2, subsetSamplesAndVariants mt subsetIds flag = .ok mt2 ∧
        mt2.sampleIds = mt.sampleIds.filter (fun s => subsetIds.contains s) ∧
        ∀ row ∈ mt2.nonRefCalls, row.any id = true) := by
  constructor
  · rintro ⟨hne, hcase⟩
    unfold subsetSamplesAndVariants
    rw [if_pos]
    refine ⟨fun h0 => hne (List.length_eq_zero.1 h0), ?_⟩
    rintro ⟨hlt, hflag⟩
    rcases hcase with hf | hall
    · rw [hflag] at hf
      cases hf
    · have : (subsetIds.filter (fun s => !(mt.sampleIds.contains s))).length =
          subsetIds.length := by
        rw [List.filter_length_eq_length]
        intro s hs
        rw [hall s hs]
        rfl
      omega
  · intro h
    unfold subsetSamplesAndVariants
    rw [if_neg]
    · refine ⟨filterRowsAnyNonRef (semiJoinCols mt subsetIds), rfl, rfl, ?_⟩
      intro row hrow
      exact (List.mem_filter.1 hrow).2
    · rintro ⟨hne, hcond⟩
      rcases h with hempty | ⟨hflag, s, hs, hmem⟩
      · exact hne (by rw [hempty]; rfl)
      · refine hcond ⟨?_, hflag⟩
        have hle : (subsetIds.filter (fun s => !(mt.sampleIds.contains s))).length ≤
            subsetIds.length := List.length_filter_le _ _
        rcases lt_or_eq_of_le hle with hlt | heq
        · exact hlt
        · rw [List.filter_length_eq_length] at heq
          have := heq s hs
          rw [hmem] at this
          cases this

/-- C6 at the spec's concrete instance: subset ids `A, B, C` against callset
ids `A, B` fail listing `C` when the flag is off, and succeed retaining only
columns `A, B` (and only rows with a non-reference call) when it is on. -/
theorem subset_missing_samples_instance :
    subsetSamplesAndVariants ⟨["A", "B"], [[true, false], [false, false]]⟩
        ["A", "B", "C"] false =
      .error { matchedCount := 2, subsetCount := 3, missingSamples := ["C"],
               allCallsetIds := ["A", "B"] } ∧
    subsetSamplesAndVariants ⟨["A", "B"], [[true, false], [false, false]]⟩
        ["A", "B", "C"] true =
      .ok ⟨["A", "B"], [[true, false]]⟩ := by
  exact ⟨by rfl, by rfl⟩

/-- C9 counterexample: for an existing index named `MYINDEX`, the snapshot is
named with the lowercased index, which differs from the claimed
`snapshot_<index>__<timestamp>` built from the index name as given. -/
theorem snapshot_name_lowercased_counterexample :
    createSnapshot ["MYINDEX"] "elasticsearch-prod" "MYINDEX"
        "2026-10-12_00-00-00" true =
      .ok { snapshotName := "snapshot_myindex__2026-10-12_00-00-00"
            repository := "elasticsearch-prod"
            waitForCompletion := true } ∧
    "snapshot_myindex__2026-10-12_00-00-00" ≠
      "snapshot_MYINDEX__2026-10-12_00-00-00" := by
  exact ⟨by rfl, by decide⟩

/-- C9 amended: an index absent from the cluster's existing indices is an
argument-parsing error; an existing index yields a snapshot named
`snapshot_<lowercased index>__<timestamp>`. -/
theorem snapshot_create_behavior (existingIndices : List String)
    (repo index timestamp : String) (wait : Bool) :
    (index ∉ existingIndices →
      ∃ msg, createSnapshot existingIndices repo index timestamp wait = .error msg) ∧
    (index ∈ existingIndices →
      createSnapshot existingIndices repo index timestamp wait =
        .ok { snapshotName := "snapshot_" ++ pyLower index ++ "__" ++ timestamp
              repository := repo
              waitForCompletion := wait }) := by
  constructor
  · intro hnot
    have hc : existingIndices.contains index = false := by
      cases h : existingIndices.contains index
      · rfl
      · exact absurd (listContainsIff existingIndices index |>.1 h) hnot
    refine ⟨index ++ " not found. Existing indices are: " ++
      String.intercalate ", " existingIndices, ?_⟩
    unfold createSnapshot
    rw [hc]
    rfl
  · intro hmem
    have hc : existingIndices.contains index = true :=
      (listContainsIff existingIndices index).2 hmem
    unfold createSnapshot
    rw [hc]
    rfl

/-- C9 amended, at concrete inputs: a known lowercase index snapshots under
its own name; an unknown index errors. -/
theorem snapshot_create_behavior_instance :
    createSnapshot ["data"] "repo" "data" "2026-10-12_00-00-00" false =
      .ok { snapshotName := "snapshot_data__2026-10-12_00-00-00"
            repository := "repo"
            waitForCompletion := false } ∧
    (∃ msg, createSnapshot ["data"] "repo" "other" "2026-10-12_00-00-00" false =
      .error msg) := by
  exact ⟨by rfl,
    (snapshot_create_behavior ["data"] "repo" "other" "2026-10-12_00-00-00" false).1
      (by decide)⟩
